import Mathlib

/-!
Verification development for the google-drive-manager backend.

The definitions below are a shallow embedding of the TypeScript handlers in
src/server/src/handlers (validate_session.ts, validate_api_key.ts,
list_files.ts, upload_file.ts, download_file.ts, delete_file.ts,
open_workspace_doc.ts, refresh_token.ts).  Machine time is modelled as Int
milliseconds since the epoch (the JavaScript Date model); database tables are
lists of rows; every external effect (database select, update, insert, HTTP
fetch) is driven by an explicit environment value describing its outcome, so
that throwing storage layers and failing HTTP calls are ordinary inputs.
-/

namespace GDrive

/-- Authenticated caller context, as produced by the validators. -/
structure UserContext where
  userId : Nat
  googleId : String
  email : String
deriving DecidableEq, Repr

/-- Row of the users table (fields used by the handlers). -/
structure UserRow where
  id : Nat
  google_id : String
  email : String
  access_token : String
  refresh_token : String
  token_expiry : Int
  updated_at : Int
deriving DecidableEq, Repr

/-- Row of the sessions table. -/
structure SessionRow where
  id : Nat
  user_id : Nat
  session_token : String
  expires_at : Int
  is_active : Bool
deriving DecidableEq, Repr

/-- Row of the api_keys table. -/
structure ApiKeyRow where
  id : Nat
  user_id : Nat
  api_key : String
  is_active : Bool
  last_used_at : Option Int
deriving DecidableEq, Repr

/-- Storage-layer failure (a thrown database error). -/
inductive DbError where
  | storage
deriving DecidableEq, Repr

/-- Database state seen by the two validators, with fault-injection flags
modelling a storage layer whose select or update call throws. -/
structure AuthDb where
  users : List UserRow
  sessions : List SessionRow
  apiKeys : List ApiKeyRow
  failSelect : Bool
  failUpdate : Bool
deriving DecidableEq, Repr

/-- The inner join of sessions (filtered on token and active flag) with users,
as issued by validate_session.ts lines 14-23. -/
def sessionJoinRows (db : AuthDb) (tok : String) : List (SessionRow × UserRow) :=
  (db.sessions.filter (fun s => s.session_token == tok && s.is_active)).filterMap
    (fun s => (db.users.find? (fun u => u.id == s.user_id)).map (fun u => (s, u)))

/-- The select of validate_session.ts, which may throw. -/
def dbSelectSessions (db : AuthDb) (tok : String) :
    Except DbError (List (SessionRow × UserRow)) :=
  if db.failSelect then .error .storage else .ok (sessionJoinRows db tok)

/-- The database with one session deactivated. -/
def deactivatedDb (db : AuthDb) (sid : Nat) : AuthDb :=
  { db with sessions := db.sessions.map (fun s => if s.id == sid then { s with is_active := false } else s) }

/-- The update of validate_session.ts lines 35-38 (set is_active false). -/
def dbDeactivateSession (db : AuthDb) (sid : Nat) : Except DbError AuthDb :=
  if db.failUpdate then .error .storage
  else .ok (deactivatedDb db sid)

/-- JavaScript String.prototype.trim: strip leading and trailing whitespace
from the character sequence. -/
def jsTrim (s : String) : String :=
  ⟨((s.data.dropWhile Char.isWhitespace).reverse.dropWhile Char.isWhitespace).reverse⟩

/-- The user context literal returned by both validators. -/
def userCtxOf (u : UserRow) : UserContext :=
  { userId := u.id, googleId := u.google_id, email := u.email }

/-- Body of the try block of validateSession (validate_session.ts lines 7-48). -/
def validateSessionCore (db : AuthDb) (now : Int) (tok : String) :
    Except DbError (Option UserContext × AuthDb) :=
  if jsTrim tok == "" then .ok (none, db)
  else
    match dbSelectSessions db (jsTrim tok) with
    | .error e => .error e
    | .ok [] => .ok (none, db)
    | .ok ((s, u) :: _) =>
      if s.expires_at ≤ now then
        match dbDeactivateSession db s.id with
        | .error e => .error e
        | .ok db2 => .ok (none, db2)
      else .ok (some (userCtxOf u), db)

/-- validateSession (validate_session.ts): the catch block converts every
thrown error into the invalid result null, leaving the database unchanged. -/
def validateSession (db : AuthDb) (now : Int) (tok : String) :
    Option UserContext × AuthDb :=
  match validateSessionCore db now tok with
  | .ok r => r
  | .error _ => (none, db)

/-- The inner join of api_keys (filtered on value and active flag) with users,
as issued by validate_api_key.ts lines 9-18. -/
def apiKeyJoinRows (db : AuthDb) (key : String) : List (ApiKeyRow × UserRow) :=
  (db.apiKeys.filter (fun k => k.api_key == key && k.is_active)).filterMap
    (fun k => (db.users.find? (fun u => u.id == k.user_id)).map (fun u => (k, u)))

/-- The select of validate_api_key.ts, which may throw. -/
def dbSelectApiKeys (db : AuthDb) (key : String) :
    Except DbError (List (ApiKeyRow × UserRow)) :=
  if db.failSelect then .error .storage else .ok (apiKeyJoinRows db key)

/-- The last_used_at update of validate_api_key.ts lines 29-34. -/
def dbTouchApiKey (db : AuthDb) (kid : Nat) (now : Int) : Except DbError AuthDb :=
  if db.failUpdate then .error .storage
  else .ok { db with
    apiKeys := db.apiKeys.map
      (fun k => if k.id == kid then { k with last_used_at := some now } else k) }

/-- validateApiKey (validate_api_key.ts).  Note that its catch block logs and
then rethrows (line 44: throw error), so a storage failure is an error result,
not null. -/
def validateApiKey (db : AuthDb) (now : Int) (key : String) :
    Except DbError (Option UserContext × AuthDb) :=
  match dbSelectApiKeys db key with
  | .error e => .error e
  | .ok [] => .ok (none, db)
  | .ok ((k, u) :: _) =>
    match dbTouchApiKey db k.id now with
    | .error e => .error e
    | .ok db2 => .ok (some (userCtxOf u), db2)

/-- Input of the list operation (listFilesInputSchema). -/
structure ListFilesInput where
  folderId : Option String
  pageToken : Option String
  pageSize : Nat
  query : Option String
deriving DecidableEq, Repr

/-- JavaScript truthiness of an optional string: undefined and the empty
string are falsy. -/
def strTruthy : Option String → Bool
  | none => false
  | some s => decide (s ≠ "")

/-- A single-quote character, used by the Drive query grammar. -/
def sq : String := "\x27"

/-- JavaScript Array.prototype.join with separator " and ". -/
def joinAnd : List String → String
  | [] => ""
  | [x] => x
  | x :: y :: xs => x ++ " and " ++ joinAnd (y :: xs)

/-- buildGoogleDriveQuery (list_files.ts lines 79-96): push the folder clause
if a folder filter is given, then the name clause if a search string is given,
then unconditionally the trashed clause, and join with " and ". -/
def buildGoogleDriveQuery (input : ListFilesInput) : String :=
  let p1 : List String :=
    if strTruthy input.folderId then
      [sq ++ input.folderId.getD "" ++ sq ++ " in parents"] else []
  let p2 : List String :=
    if strTruthy input.query then
      ["name contains " ++ sq ++ input.query.getD "" ++ sq] else []
  joinAnd (p1 ++ p2 ++ ["trashed = false"])

/-- Outcome of one HTTP fetch: a success payload or a non-ok status code. -/
inductive FetchOutcome (α : Type) where
  | ok (payload : α)
  | httpFail (status : Nat)
deriving DecidableEq, Repr

/-- JSON body of a successful OAuth token-endpoint response.  The
refresh_token field is optional: Google may or may not rotate it. -/
structure RefreshData where
  access_token : String
  expires_in : Int
  refresh_token : Option String
deriving DecidableEq, Repr

/-- Error taxonomy of the operation handlers (the messages of the thrown
Error objects are mapped to constructors). -/
inductive OpError where
  | userNotFound
  | refreshFailed
  | fileNotFound
  | metadataFailed
  | permissionDenied
  | driveDeleteFailed
  | uploadHttpFailed (status : Nat)
  | listHttpFailed (status : Nat)
  | contentFailed
  | notWorkspaceDoc (mimeType : String)
  | dbFailure
deriving DecidableEq, Repr

/-- Metadata blob of an audit entry (the object passed to JSON.stringify). -/
inductive AuditMeta where
  | listMeta (folderId q : Option String) (pageSize : Nat)
  | uploadMeta (mimeType : String) (size : Option String) (parentId : Option String)
  | downloadMeta (mimeType : String) (size : Nat) (originalMimeType : String)
  | deleteMeta (parents : Option (List String))
  | deleteFailedMeta (errMsg : String)
  | openMeta (mimeType workspaceType editUrl viewUrl : String)
deriving DecidableEq, Repr

/-- One row of the audit_logs table as inserted by the handlers. -/
structure AuditEntry where
  user_id : Nat
  action : String
  file_id : Option String
  file_name : Option String
  meta : AuditMeta
deriving DecidableEq, Repr

/-- Persistent state threaded through an operation handler. -/
structure St where
  users : List UserRow
  audits : List AuditEntry
deriving DecidableEq, Repr

/-- Side-effect counters of one handler run.  dbWrites counts database
update and insert statements (selects are reads). -/
structure Trace where
  tokenCalls : Nat := 0
  metadataCalls : Nat := 0
  listCalls : Nat := 0
  uploadCalls : Nat := 0
  contentCalls : Nat := 0
  deleteCalls : Nat := 0
  dbWrites : Nat := 0
deriving DecidableEq, Repr

/-- Result of one handler run: the returned or thrown value, the final
persistent state, and the effect counters. -/
structure HandlerOut (ρ : Type) where
  result : Except OpError ρ
  st : St
  trace : Trace
deriving Repr

/-- Refresh-token rotation as applied by refresh_token.ts lines 71-74: the
stored value is replaced only when the response carries a truthy (present,
non-empty) refresh_token, otherwise it is retained. -/
def rotatedToken (old : String) (resp : Option String) : String :=
  match resp with
  | some r => if r = "" then old else r
  | none => old

/-- Environment of one token-refresh attempt: the token-endpoint response and
whether the subsequent database update succeeds. -/
structure RefreshEnv where
  refreshResp : FetchOutcome RefreshData
  dbUpdateOk : Bool
deriving DecidableEq, Repr

/-- Output of refreshUserToken. -/
structure RefreshOut where
  result : Except OpError Unit
  users : List UserRow
  tokenCalls : Nat
  dbWrites : Nat
deriving Repr

/-- refreshUserToken (refresh_token.ts): skip when the expiry is more than
five minutes away; otherwise call the token endpoint and persist access
token, expiry and (only on rotation) refresh token in a single update. -/
def refreshUserToken (env : RefreshEnv) (users0 : List UserRow)
    (ctx : UserContext) (now : Int) : RefreshOut :=
  match users0.find? (fun w => w.id == ctx.userId) with
  | none => ⟨.error .userNotFound, users0, 0, 0⟩
  | some user =>
    if user.token_expiry > now + 5 * 60 * 1000 then ⟨.ok (), users0, 0, 0⟩
    else
      match env.refreshResp with
      | .httpFail _ => ⟨.error .refreshFailed, users0, 1, 0⟩
      | .ok data =>
        if env.dbUpdateOk then
          ⟨.ok (),
           users0.map (fun w =>
             if w.id == ctx.userId then
               { w with
                 access_token := data.access_token,
                 token_expiry := now + data.expires_in * 1000,
                 refresh_token := rotatedToken w.refresh_token data.refresh_token,
                 updated_at := now }
             else w),
           1, 1⟩
        else ⟨.error .dbFailure, users0, 1, 0⟩

/-- Output of the token-returning refresh helpers. -/
structure TokenFetchOut where
  result : Except OpError String
  users : List UserRow
  tokenCalls : Nat
  dbWrites : Nat
deriving Repr

/-- refreshAccessTokenIfNeeded (list_files.ts lines 25-77): skip when now is
earlier than expiry minus the five-minute buffer; otherwise refresh and
persist access token and expiry together (the refresh token is not touched). -/
def refreshAccessTokenIfNeeded (env : RefreshEnv) (users0 : List UserRow)
    (userId : Nat) (now : Int) : TokenFetchOut :=
  match users0.find? (fun w => w.id == userId) with
  | none => ⟨.error .userNotFound, users0, 0, 0⟩
  | some user =>
    if now < user.token_expiry - 5 * 60 * 1000 then
      ⟨.ok user.access_token, users0, 0, 0⟩
    else
      match env.refreshResp with
      | .httpFail _ => ⟨.error .refreshFailed, users0, 1, 0⟩
      | .ok data =>
        if env.dbUpdateOk then
          ⟨.ok data.access_token,
           users0.map (fun w =>
             if w.id == userId then
               { w with
                 access_token := data.access_token,
                 token_expiry := now + data.expires_in * 1000,
                 updated_at := now }
             else w),
           1, 1⟩
        else ⟨.error .dbFailure, users0, 1, 0⟩

/-- The zero-buffer inline refresh duplicated verbatim in delete_file.ts
lines 21-57, download_file.ts lines 21-60 and upload_file.ts lines 20-56:
refresh exactly when the stored expiry is not in the future, and persist
access token and expiry together (the refresh token is not touched). -/
def inlineRefresh (refreshResp : FetchOutcome RefreshData) (dbUpdateOk : Bool)
    (users0 : List UserRow) (uid : Nat) (now : Int) (user : UserRow) :
    TokenFetchOut :=
  if user.token_expiry ≤ now then
    match refreshResp with
    | .httpFail _ => ⟨.error .refreshFailed, users0, 1, 0⟩
    | .ok data =>
      if dbUpdateOk then
        ⟨.ok data.access_token,
         users0.map (fun w =>
           if w.id == uid then
             { w with
               access_token := data.access_token,
               token_expiry := now + data.expires_in * 1000,
               updated_at := now }
           else w),
         1, 1⟩
      else ⟨.error .dbFailure, users0, 1, 0⟩
  else ⟨.ok user.access_token, users0, 0, 0⟩

/-- The refreshAccessToken helper of open_workspace_doc.ts lines 79-113:
like the inline refresh, except that a falsy expires_in defaults to 3600
seconds. -/
def refreshAccessTokenOpenDoc (refreshResp : FetchOutcome RefreshData)
    (dbUpdateOk : Bool) (users0 : List UserRow) (uid : Nat) (now : Int) :
    TokenFetchOut :=
  match refreshResp with
  | .httpFail _ => ⟨.error .refreshFailed, users0, 1, 0⟩
  | .ok data =>
    let ei : Int := if data.expires_in = 0 then 3600 else data.expires_in
    if dbUpdateOk then
      ⟨.ok data.access_token,
       users0.map (fun w =>
         if w.id == uid then
           { w with
             access_token := data.access_token,
             token_expiry := now + ei * 1000,
             updated_at := now }
         else w),
       1, 1⟩
    else ⟨.error .dbFailure, users0, 1, 0⟩

/-- Drive metadata fetched by deleteFile (fields id,name,parents,trashed,
owners; owners projected to the emailAddress strings compared by the code). -/
structure DeleteMeta where
  name : String
  parents : Option (List String)
  trashed : Option Bool
  owners : Option (List String)
deriving DecidableEq, Repr

/-- Environment of one deleteFile run. -/
structure DeleteEnv where
  refreshResp : FetchOutcome RefreshData
  dbUpdateOk : Bool
  metadataResp : FetchOutcome DeleteMeta
  deleteOk : Bool
  auditInsertOk : Bool
  failAuditInsertOk : Bool
deriving DecidableEq, Repr

/-- Response shape of the delete operation. -/
structure DeleteFileResponse where
  success : Bool
  message : String
deriving DecidableEq, Repr

/-- The message of the Error object thrown on each failure path. -/
def errMessage : OpError → String
  | .userNotFound => "User not found"
  | .refreshFailed => "Failed to refresh access token"
  | .fileNotFound => "File not found"
  | .metadataFailed => "Failed to get file metadata"
  | .permissionDenied => "You do not have permission to delete this file"
  | .driveDeleteFailed => "Failed to delete file from Google Drive"
  | .uploadHttpFailed _ => "Upload failed"
  | .listHttpFailed _ => "Google Drive API request failed"
  | .contentFailed => "Failed to download file content"
  | .notWorkspaceDoc _ => "File is not a Google Workspace document"
  | .dbFailure => "Database error"

/-- Body of the try block of deleteFile (delete_file.ts lines 7-129). -/
def deleteFileCore (env : DeleteEnv) (st0 : St) (ctx : UserContext)
    (fileId : String) (now : Int) : HandlerOut DeleteFileResponse :=
  match st0.users.find? (fun w => w.id == ctx.userId) with
  | none => ⟨.error .userNotFound, st0, {}⟩
  | some user =>
    let r := inlineRefresh env.refreshResp env.dbUpdateOk st0.users ctx.userId now user
    match r.result with
    | .error e =>
      ⟨.error e, { st0 with users := r.users },
       { tokenCalls := r.tokenCalls, dbWrites := r.dbWrites }⟩
    | .ok _tok =>
      let st1 : St := { st0 with users := r.users }
      let t1 : Trace :=
        { tokenCalls := r.tokenCalls, dbWrites := r.dbWrites, metadataCalls := 1 }
      match env.metadataResp with
      | .httpFail s =>
        if s == 404 then ⟨.error .fileNotFound, st1, t1⟩
        else ⟨.error .metadataFailed, st1, t1⟩
      | .ok meta =>
        let owns : Bool :=
          match meta.owners with
          | some l => l.any (fun o => o == ctx.email)
          | none => false
        if !owns then ⟨.error .permissionDenied, st1, t1⟩
        else if meta.trashed.getD false then
          ⟨.ok ⟨false, "File is already in trash"⟩, st1, t1⟩
        else
          let t2 := { t1 with deleteCalls := 1 }
          if !env.deleteOk then ⟨.error .driveDeleteFailed, st1, t2⟩
          else if env.auditInsertOk then
            ⟨.ok ⟨true, "File \"" ++ meta.name ++ "\" deleted successfully"⟩,
             { st1 with audits := st1.audits ++
                 [⟨ctx.userId, "delete", some fileId, some meta.name,
                   .deleteMeta meta.parents⟩] },
             { t2 with dbWrites := t2.dbWrites + 1 }⟩
          else ⟨.error .dbFailure, st1, t2⟩

/-- deleteFile (delete_file.ts): the catch block writes a best-effort
delete_failed audit entry (its own failure swallowed) and rethrows. -/
def deleteFile (env : DeleteEnv) (st0 : St) (ctx : UserContext)
    (fileId : String) (now : Int) : HandlerOut DeleteFileResponse :=
  let r := deleteFileCore env st0 ctx fileId now
  match r.result with
  | .ok _ => r
  | .error e =>
    if env.failAuditInsertOk then
      ⟨.error e,
       { r.st with audits := r.st.audits ++
           [⟨ctx.userId, "delete", some fileId, none,
             .deleteFailedMeta (errMessage e)⟩] },
       { r.trace with dbWrites := r.trace.dbWrites + 1 }⟩
    else r

/-- The workspaceTypes table of download_file.ts lines 93-99: Workspace MIME
type to export MIME type and file extension. -/
def workspaceTypes (m : String) : Option (String × String) :=
  if m = "application/vnd.google-apps.document" then
    some ("application/vnd.openxmlformats-officedocument.wordprocessingml.document", ".docx")
  else if m = "application/vnd.google-apps.spreadsheet" then
    some ("application/vnd.openxmlformats-officedocument.spreadsheetml.sheet", ".xlsx")
  else if m = "application/vnd.google-apps.presentation" then
    some ("application/vnd.openxmlformats-officedocument.presentationml.presentation", ".pptx")
  else if m = "application/vnd.google-apps.drawing" then
    some ("image/png", ".png")
  else if m = "application/vnd.google-apps.script" then
    some ("application/vnd.google-apps.script+json", ".json")
  else none

/-- JavaScript String.prototype.endsWith: suffix test on the character
sequence. -/
def jsEndsWith (s suffixStr : String) : Bool :=
  suffixStr.data.isSuffixOf s.data

/-- Drive metadata fetched by downloadFile (fields id,name,mimeType,size,
webContentLink). -/
structure DownloadMeta where
  id : String
  name : String
  mimeType : String
  size : Option String
  webContentLink : Option String
deriving DecidableEq, Repr

/-- Environment of one downloadFile run.  The downloaded bytes are abstracted
to their byte length together with their base64 encoding. -/
structure DownloadEnv where
  refreshResp : FetchOutcome RefreshData
  dbUpdateOk : Bool
  metadataResp : FetchOutcome DownloadMeta
  contentOk : Bool
  contentBytes : Nat
  contentB64 : String
  auditInsertOk : Bool
deriving DecidableEq, Repr

/-- Response shape of the download operation. -/
structure DownloadFileResponse where
  content : String
  mimeType : String
  name : String
deriving DecidableEq, Repr

/-- downloadFile (download_file.ts).  Its catch block only logs and rethrows,
so no wrapper is needed; in particular the audit insert at lines 132-145 runs
inside the try block and its failure propagates. -/
def downloadFile (env : DownloadEnv) (st0 : St) (ctx : UserContext)
    (fileId : String) (now : Int) : HandlerOut DownloadFileResponse :=
  match st0.users.find? (fun w => w.id == ctx.userId) with
  | none => ⟨.error .userNotFound, st0, {}⟩
  | some user =>
    let r := inlineRefresh env.refreshResp env.dbUpdateOk st0.users ctx.userId now user
    match r.result with
    | .error e =>
      ⟨.error e, { st0 with users := r.users },
       { tokenCalls := r.tokenCalls, dbWrites := r.dbWrites }⟩
    | .ok _tok =>
      let st1 : St := { st0 with users := r.users }
      let t1 : Trace :=
        { tokenCalls := r.tokenCalls, dbWrites := r.dbWrites, metadataCalls := 1 }
      match env.metadataResp with
      | .httpFail s =>
        if s == 404 then ⟨.error .fileNotFound, st1, t1⟩
        else ⟨.error .metadataFailed, st1, t1⟩
      | .ok meta =>
        let fm :=
          match workspaceTypes meta.mimeType with
          | some (et, ext) =>
            (et, if jsEndsWith meta.name ext then meta.name else meta.name ++ ext)
          | none => (meta.mimeType, meta.name)
        let finalMimeType := fm.1
        let finalName := fm.2
        let t2 := { t1 with contentCalls := 1 }
        if !env.contentOk then ⟨.error .contentFailed, st1, t2⟩
        else if env.auditInsertOk then
          ⟨.ok ⟨env.contentB64, finalMimeType, finalName⟩,
           { st1 with audits := st1.audits ++
               [⟨ctx.userId, "download", some fileId, some finalName,
                 .downloadMeta finalMimeType env.contentBytes meta.mimeType⟩] },
           { t2 with dbWrites := t2.dbWrites + 1 }⟩
        else ⟨.error .dbFailure, st1, t2⟩

/-- Provider file resource as returned by the Drive list and upload
endpoints (GoogleDriveApiFile in list_files.ts).  Date strings are kept as
strings; the new Date(...) parse is the identity of this model. -/
structure DriveApiFile where
  id : String
  name : String
  mimeType : String
  size : Option String
  createdTime : String
  modifiedTime : String
  webViewLink : Option String
  webContentLink : Option String
  parents : Option (List String)
  trashed : Option Bool
  kind : Option String
deriving DecidableEq, Repr

/-- Internal file shape (GoogleDriveFile of the schema). -/
structure GoogleDriveFile where
  id : String
  name : String
  mimeType : String
  size : Option String
  createdTime : String
  modifiedTime : String
  webViewLink : Option String
  webContentLink : Option String
  parents : Option (List String)
  trashed : Option Bool
  kind : Option String
deriving DecidableEq, Repr

/-- The JavaScript expression x || null on an optional string field:
undefined and the empty string collapse to null. -/
def jsOrNull : Option String → Option String
  | none => none
  | some s => if s = "" then none else some s

/-- transformGoogleDriveFile (list_files.ts lines 98-112). -/
def transformGoogleDriveFile (f : DriveApiFile) : GoogleDriveFile :=
  { id := f.id
    name := f.name
    mimeType := f.mimeType
    size := jsOrNull f.size
    createdTime := f.createdTime
    modifiedTime := f.modifiedTime
    webViewLink := jsOrNull f.webViewLink
    webContentLink := jsOrNull f.webContentLink
    parents := f.parents
    trashed := f.trashed
    kind := f.kind }

/-- Payload of a successful Drive list call. -/
structure ListPayload where
  files : List DriveApiFile
  nextPageToken : Option String
deriving DecidableEq, Repr

/-- Environment of one listFiles run. -/
structure ListEnv where
  refreshResp : FetchOutcome RefreshData
  dbUpdateOk : Bool
  listResp : FetchOutcome ListPayload
  auditInsertOk : Bool
deriving DecidableEq, Repr

/-- Response shape of the list operation. -/
structure FileListResponse where
  files : List GoogleDriveFile
  nextPageToken : Option String
deriving DecidableEq, Repr

/-- listFiles (list_files.ts lines 137-187).  The audit write goes through
logAuditOperation (lines 114-135), whose own try/catch swallows the failure,
so the result is returned either way. -/
def listFiles (env : ListEnv) (st0 : St) (ctx : UserContext)
    (input : ListFilesInput) (now : Int) : HandlerOut FileListResponse :=
  let r := refreshAccessTokenIfNeeded ⟨env.refreshResp, env.dbUpdateOk⟩
             st0.users ctx.userId now
  match r.result with
  | .error e =>
    ⟨.error e, { st0 with users := r.users },
     { tokenCalls := r.tokenCalls, dbWrites := r.dbWrites }⟩
  | .ok _tok =>
    let st1 : St := { st0 with users := r.users }
    let t1 : Trace :=
      { tokenCalls := r.tokenCalls, dbWrites := r.dbWrites, listCalls := 1 }
    match env.listResp with
    | .httpFail s => ⟨.error (.listHttpFailed s), st1, t1⟩
    | .ok payload =>
      let resp : FileListResponse :=
        ⟨payload.files.map transformGoogleDriveFile, payload.nextPageToken⟩
      if env.auditInsertOk then
        ⟨.ok resp,
         { st1 with audits := st1.audits ++
             [⟨ctx.userId, "list", none, none,
               .listMeta input.folderId input.query input.pageSize⟩] },
         { t1 with dbWrites := t1.dbWrites + 1 }⟩
      else ⟨.ok resp, st1, t1⟩

/-- Input of the upload operation; content is the base64 payload. -/
structure UploadFileInput where
  name : String
  mimeType : String
  parentId : Option String
  content : String
deriving DecidableEq, Repr

/-- JSON.stringify of the metadata part of the multipart body
(upload_file.ts lines 67-71); string escaping of the field values is
abstracted, and a falsy parentId omits the parents field. -/
def uploadMetadataJson (input : UploadFileInput) : String :=
  "\x7b\"name\":\"" ++ input.name ++ "\",\"mimeType\":\"" ++ input.mimeType
    ++ "\"" ++
    (match input.parentId with
     | some pid => if pid = "" then "" else ",\"parents\":[\"" ++ pid ++ "\"]"
     | none => "") ++ "\x7d"

/-- CRLF pair used by the multipart body. -/
def crlf : String := "\x0d\n"

/-- The multipart/related body built by upload_file.ts lines 62-82. -/
def multipartBody (input : UploadFileInput) (base64Content : String) : String :=
  let boundary := "-------314159265358979323846"
  let delim := crlf ++ "--" ++ boundary ++ crlf
  let closeDelim := crlf ++ "--" ++ boundary ++ "--"
  delim ++ "Content-Type: application/json" ++ crlf ++ crlf
    ++ uploadMetadataJson input ++ delim
    ++ "Content-Type: " ++ input.mimeType ++ crlf
    ++ "Content-Transfer-Encoding: base64" ++ crlf ++ crlf
    ++ base64Content ++ closeDelim

/-- Environment of one uploadFile run. -/
structure UploadEnv where
  refreshResp : FetchOutcome RefreshData
  dbUpdateOk : Bool
  uploadResp : FetchOutcome DriveApiFile
  auditInsertOk : Bool
deriving DecidableEq, Repr

/-- Response shape of the upload operation. -/
structure UploadFileResponse where
  file : GoogleDriveFile
deriving DecidableEq, Repr

/-- The created-file mapping of upload_file.ts lines 116-128 (note that
trashed defaults to false here, unlike the list transform). -/
def transformUploadedFile (f : DriveApiFile) : GoogleDriveFile :=
  { transformGoogleDriveFile f with trashed := some (f.trashed.getD false) }

/-- uploadFile (upload_file.ts).  The base64 decode and re-encode of the
content round-trips and is abstracted away; the audit insert at lines 131-145
runs inside the try block, whose catch rethrows, so its failure propagates. -/
def uploadFile (env : UploadEnv) (st0 : St) (ctx : UserContext)
    (input : UploadFileInput) (now : Int) : HandlerOut UploadFileResponse :=
  match st0.users.find? (fun w => w.id == ctx.userId) with
  | none => ⟨.error .userNotFound, st0, {}⟩
  | some user =>
    let r := inlineRefresh env.refreshResp env.dbUpdateOk st0.users ctx.userId now user
    match r.result with
    | .error e =>
      ⟨.error e, { st0 with users := r.users },
       { tokenCalls := r.tokenCalls, dbWrites := r.dbWrites }⟩
    | .ok _tok =>
      let _body := multipartBody input input.content
      let st1 : St := { st0 with users := r.users }
      let t1 : Trace :=
        { tokenCalls := r.tokenCalls, dbWrites := r.dbWrites, uploadCalls := 1 }
      match env.uploadResp with
      | .httpFail s => ⟨.error (.uploadHttpFailed s), st1, t1⟩
      | .ok df =>
        let gf := transformUploadedFile df
        if env.auditInsertOk then
          ⟨.ok ⟨gf⟩,
           { st1 with audits := st1.audits ++
               [⟨ctx.userId, "upload", some gf.id, some gf.name,
                 .uploadMeta gf.mimeType gf.size input.parentId⟩] },
           { t1 with dbWrites := t1.dbWrites + 1 }⟩
        else ⟨.error .dbFailure, st1, t1⟩

/-- The WORKSPACE_MIME_TYPES table of open_workspace_doc.ts lines 7-15. -/
def workspaceMimeTypes (m : String) : Option String :=
  if m = "application/vnd.google-apps.document" then some "document"
  else if m = "application/vnd.google-apps.spreadsheet" then some "spreadsheets"
  else if m = "application/vnd.google-apps.presentation" then some "presentation"
  else if m = "application/vnd.google-apps.form" then some "forms"
  else if m = "application/vnd.google-apps.drawing" then some "drawings"
  else if m = "application/vnd.google-apps.site" then some "sites"
  else if m = "application/vnd.google-apps.jam" then some "jamboard"
  else none

/-- Drive metadata fetched by openWorkspaceDoc. -/
structure OpenMeta where
  name : String
  mimeType : String
deriving DecidableEq, Repr

/-- Environment of one openWorkspaceDoc run. -/
structure OpenEnv where
  refreshResp : FetchOutcome RefreshData
  dbUpdateOk : Bool
  metadataResp : FetchOutcome OpenMeta
  auditInsertOk : Bool
deriving DecidableEq, Repr

/-- Response shape of the open-workspace-doc operation. -/
structure WorkspaceDocUrlResponse where
  editUrl : String
  viewUrl : String
deriving DecidableEq, Repr

/-- openWorkspaceDoc (open_workspace_doc.ts lines 19-77).  Metadata 404 maps
to FileNotFound and 403 to PermissionDenied (getFileMetadata lines 125-133);
the audit insert at lines 54-67 runs inside the try block, whose catch
rethrows, so its failure propagates. -/
def openWorkspaceDoc (env : OpenEnv) (st0 : St) (ctx : UserContext)
    (fileId : String) (now : Int) : HandlerOut WorkspaceDocUrlResponse :=
  match st0.users.find? (fun w => w.id == ctx.userId) with
  | none => ⟨.error .userNotFound, st0, {}⟩
  | some user =>
    let r :=
      if user.token_expiry ≤ now then
        refreshAccessTokenOpenDoc env.refreshResp env.dbUpdateOk st0.users
          ctx.userId now
      else ⟨.ok user.access_token, st0.users, 0, 0⟩
    match r.result with
    | .error e =>
      ⟨.error e, { st0 with users := r.users },
       { tokenCalls := r.tokenCalls, dbWrites := r.dbWrites }⟩
    | .ok _tok =>
      let st1 : St := { st0 with users := r.users }
      let t1 : Trace :=
        { tokenCalls := r.tokenCalls, dbWrites := r.dbWrites, metadataCalls := 1 }
      match env.metadataResp with
      | .httpFail s =>
        if s == 404 then ⟨.error .fileNotFound, st1, t1⟩
        else if s == 403 then ⟨.error .permissionDenied, st1, t1⟩
        else ⟨.error .metadataFailed, st1, t1⟩
      | .ok meta =>
        match workspaceMimeTypes meta.mimeType with
        | none => ⟨.error (.notWorkspaceDoc meta.mimeType), st1, t1⟩
        | some seg =>
          let editUrl := "https://docs.google.com/" ++ seg ++ "/d/" ++ fileId ++ "/edit"
          let viewUrl := "https://docs.google.com/" ++ seg ++ "/d/" ++ fileId ++ "/view"
          if env.auditInsertOk then
            ⟨.ok ⟨editUrl, viewUrl⟩,
             { st1 with audits := st1.audits ++
                 [⟨ctx.userId, "open", some fileId, some meta.name,
                   .openMeta meta.mimeType seg editUrl viewUrl⟩] },
             { t1 with dbWrites := t1.dbWrites + 1 }⟩
          else ⟨.error .dbFailure, st1, t1⟩

/-! Theorems. -/

/-- C3: the list query builder maps the four input shapes to exactly the four
query strings, ANDed in the fixed order folder clause, name clause, and the
trashed clause unconditionally last. -/
theorem c3_list_query (F Q : String) (hF : F ≠ "") (hQ : Q ≠ "") :
    buildGoogleDriveQuery ⟨none, none, 100, none⟩ = "trashed = false" ∧
    buildGoogleDriveQuery ⟨some F, none, 100, none⟩ =
      sq ++ F ++ sq ++ " in parents and trashed = false" ∧
    buildGoogleDriveQuery ⟨none, none, 100, some Q⟩ =
      "name contains " ++ sq ++ Q ++ sq ++ " and trashed = false" ∧
    buildGoogleDriveQuery ⟨some F, none, 100, some Q⟩ =
      sq ++ F ++ sq ++ " in parents and name contains " ++ sq ++ Q ++ sq
        ++ " and trashed = false" := by
  have hf : strTruthy (some F) = true := by simp [strTruthy, hF]
  have hq : strTruthy (some Q) = true := by simp [strTruthy, hQ]
  refine ⟨rfl, ?_, ?_, ?_⟩
  · simp only [buildGoogleDriveQuery, hf, strTruthy, if_true, Option.getD]
    simp [hF, joinAnd, sq, String.append_assoc]
    try rfl
  · simp only [buildGoogleDriveQuery, hq, strTruthy, if_true, Option.getD]
    simp [hQ, joinAnd, sq, String.append_assoc]
    try rfl
  · simp only [buildGoogleDriveQuery, hf, hq, if_true, Option.getD]
    simp [hF, hQ, joinAnd, sq, String.append_assoc]
    try rfl

/-- C3 witness at F and Q. -/
theorem c3_witness :
    buildGoogleDriveQuery ⟨none, none, 100, none⟩ = "trashed = false" ∧
    buildGoogleDriveQuery ⟨some "F", none, 100, none⟩ =
      sq ++ "F" ++ sq ++ " in parents and trashed = false" ∧
    buildGoogleDriveQuery ⟨none, none, 100, some "Q"⟩ =
      "name contains " ++ sq ++ "Q" ++ sq ++ " and trashed = false" ∧
    buildGoogleDriveQuery ⟨some "F", none, 100, some "Q"⟩ =
      sq ++ "F" ++ sq ++ " in parents and name contains " ++ sq ++ "Q" ++ sq
        ++ " and trashed = false" :=
  c3_list_query "F" "Q" (by decide) (by decide)

/-- Storage layer whose select call throws. -/
def c1CexDb : AuthDb := ⟨[], [], [], true, false⟩

/-- C1 counterexample: validateApiKey does not collapse every failure to the
invalid result null; with a storage layer that throws, its catch block
rethrows (validate_api_key.ts line 44), so the claim as stated is false. -/
theorem c1_counterexample :
    ¬ (∀ (db : AuthDb) (now : Int) (key : String),
        ∃ r, validateApiKey db now key = Except.ok r) := by
  intro h
  obtain ⟨r, hr⟩ := h c1CexDb 0 "k"
  simp [validateApiKey, dbSelectApiKeys, c1CexDb] at hr

/-- C1 amended: validateSession never throws and collapses every failure,
including a throwing storage layer, to null with the database unchanged;
validateApiKey, by contrast, rethrows a storage-layer error. -/
theorem c1_amended (db : AuthDb) (now : Int) (tok key : String)
    (hsel : db.failSelect = true) :
    validateSession db now tok = (none, db) ∧
    validateApiKey db now key = .error .storage := by
  constructor
  · cases htr : jsTrim tok == "" with
    | true => simp [validateSession, validateSessionCore, htr]
    | false => simp [validateSession, validateSessionCore, dbSelectSessions, hsel, htr]
  · unfold validateApiKey dbSelectApiKeys
    rw [hsel]
    rfl

/-- C1 amended witness on a concrete throwing storage layer. -/
theorem c1_amended_witness :
    validateSession c1CexDb 0 "tok" = (none, c1CexDb) ∧
    validateApiKey c1CexDb 0 "key" = .error .storage :=
  c1_amended c1CexDb 0 "tok" "key" rfl

/-- C9: validateSession of an empty or whitespace-only token is invalid; a
token all of whose sessions are inactive is invalid; an expired session is
invalid and is deactivated as a side effect; a valid active session returns
the owning user context. -/
theorem c9_validate_session (db : AuthDb) (now : Int) (tok : String)
    (s : SessionRow) (u : UserRow) (rest : List (SessionRow × UserRow))
    (hsel : db.failSelect = false) (hupd : db.failUpdate = false) :
    validateSession db now "" = (none, db) ∧
    (jsTrim tok = "" → validateSession db now tok = (none, db)) ∧
    ((∀ s2 ∈ db.sessions, s2.session_token = jsTrim tok → s2.is_active = false) →
      validateSession db now tok = (none, db)) ∧
    (jsTrim tok ≠ "" → sessionJoinRows db (jsTrim tok) = (s, u) :: rest →
      s.expires_at ≤ now →
      validateSession db now tok = (none, deactivatedDb db s.id) ∧
      ∀ s2 ∈ (validateSession db now tok).2.sessions,
        s2.id = s.id → s2.is_active = false) ∧
    (jsTrim tok ≠ "" → sessionJoinRows db (jsTrim tok) = (s, u) :: rest →
      now < s.expires_at →
      validateSession db now tok = (some ⟨u.id, u.google_id, u.email⟩, db)) := by
  refine ⟨rfl, ?_, ?_, ?_, ?_⟩
  · intro h
    simp [validateSession, validateSessionCore, h]
  · intro h
    have hfil : db.sessions.filter
        (fun s2 => s2.session_token == jsTrim tok && s2.is_active) = [] := by
      rw [List.filter_eq_nil_iff]
      intro a ha
      simp only [Bool.and_eq_true, beq_iff_eq, not_and]
      intro hts
      simp [h a ha hts]
    have hjoin : sessionJoinRows db (jsTrim tok) = [] := by
      simp [sessionJoinRows, hfil]
    have hcore : validateSessionCore db now tok = .ok (none, db) := by
      unfold validateSessionCore dbSelectSessions
      rw [hsel, hjoin]
      split <;> rfl
    simp [validateSession, hcore]
  · intro htok hjoin hexp
    have hne : (jsTrim tok == "") = false := beq_eq_false_iff_ne.mpr htok
    have hres : validateSession db now tok = (none, deactivatedDb db s.id) := by
      unfold validateSession validateSessionCore dbSelectSessions dbDeactivateSession
      rw [hsel, hne, hjoin, hupd]
      simp [hexp]
    refine ⟨hres, ?_⟩
    rw [hres]
    simp only [deactivatedDb]
    intro s2 hs2 hid
    obtain ⟨s3, _hs3, heq⟩ := List.mem_map.mp hs2
    by_cases h3 : s3.id = s.id
    · have hb : (s3.id == s.id) = true := beq_iff_eq.mpr h3
      rw [hb] at heq
      simp at heq
      rw [← heq]
    · have hb : (s3.id == s.id) = false := beq_eq_false_iff_ne.mpr h3
      rw [hb] at heq
      simp at heq
      rw [← heq] at hid
      exact absurd hid h3
  · intro htok hjoin hlt
    have hne : (jsTrim tok == "") = false := beq_eq_false_iff_ne.mpr htok
    unfold validateSession validateSessionCore dbSelectSessions
    rw [hsel, hne, hjoin]
    simp [not_le.mpr hlt, userCtxOf]

/-- Witness user row for the session claims. -/
def w9u : UserRow := ⟨1, "g-1", "user@example.com", "at", "rt", 1000000000, 0⟩

/-- Witness session row, active, expiring at time 100. -/
def w9s : SessionRow := ⟨7, 1, "tok", 100, true⟩

/-- Witness database for the session claims. -/
def w9db : AuthDb := ⟨[w9u], [w9s], [], false, false⟩

/-- C9 witness: the five behaviours at a concrete database, at time 50 where
the session is valid and at time 200 where it has expired. -/
theorem c9_witness :
    validateSession w9db 50 "" = (none, w9db) ∧
    validateSession w9db 50 "   " = (none, w9db) ∧
    validateSession w9db 50 "tok" = (some ⟨w9u.id, w9u.google_id, w9u.email⟩, w9db) ∧
    validateSession w9db 200 "tok" = (none, deactivatedDb w9db w9s.id) ∧
    ∀ s2 ∈ (validateSession w9db 200 "tok").2.sessions,
      s2.id = w9s.id → s2.is_active = false := by
  have h50 := c9_validate_session w9db 50 "tok" w9s w9u [] rfl rfl
  have hws := c9_validate_session w9db 50 "   " w9s w9u [] rfl rfl
  have h200 := c9_validate_session w9db 200 "tok" w9s w9u [] rfl rfl
  have hexp := h200.2.2.2.1 (by decide) (by decide) (by decide)
  exact ⟨h50.1, hws.2.1 (by decide),
    h50.2.2.2.2 (by decide) (by decide) (by decide), hexp.1, hexp.2⟩

/-- A fresh token (strict future expiry) makes the zero-buffer inline refresh
a no-op. -/
theorem inlineRefresh_fresh (resp : FetchOutcome RefreshData) (upd : Bool)
    (users0 : List UserRow) (uid : Nat) (now : Int) (u : UserRow)
    (hfresh : now < u.token_expiry) :
    inlineRefresh resp upd users0 uid now u = ⟨.ok u.access_token, users0, 0, 0⟩ := by
  unfold inlineRefresh
  rw [if_neg (not_le.mpr hfresh)]

/-- Ownership check helper: membership makes the any-scan true. -/
theorem owns_true (l : List String) (e : String) (hmem : e ∈ l) :
    l.any (fun o => o == e) = true :=
  List.any_eq_true.mpr ⟨e, hmem, by simp⟩

/-- Ownership check helper: absence makes the any-scan false. -/
theorem owns_false (l : List String) (e : String) (hnot : e ∉ l) :
    l.any (fun o => o == e) = false := by
  rw [Bool.eq_false_iff]
  intro hc
  obtain ⟨x, hx, hbx⟩ := List.any_eq_true.mp hc
  exact hnot (beq_iff_eq.mp hbx ▸ hx)

/-- C5: deleteFile on an owned, already-trashed file returns success false
without an error and with zero DELETE calls; on an owned, non-trashed file it
issues exactly one metadata fetch and exactly one DELETE call and returns
success true. -/
theorem c5_delete_trashed_and_normal (env : DeleteEnv) (st0 : St)
    (ctx : UserContext) (fileId : String) (now : Int) (u : UserRow)
    (meta : DeleteMeta) (l : List String)
    (hfind : st0.users.find? (fun w => w.id == ctx.userId) = some u)
    (hfresh : now < u.token_expiry)
    (hmeta : env.metadataResp = .ok meta)
    (howners : meta.owners = some l)
    (hmem : ctx.email ∈ l) :
    (meta.trashed = some true →
      deleteFile env st0 ctx fileId now =
        ⟨.ok ⟨false, "File is already in trash"⟩, st0, { metadataCalls := 1 }⟩) ∧
    (meta.trashed.getD false = false → env.deleteOk = true →
      env.auditInsertOk = true →
      (deleteFile env st0 ctx fileId now).result =
        .ok ⟨true, "File \"" ++ meta.name ++ "\" deleted successfully"⟩ ∧
      (deleteFile env st0 ctx fileId now).trace.metadataCalls = 1 ∧
      (deleteFile env st0 ctx fileId now).trace.deleteCalls = 1) := by
  have hir := inlineRefresh_fresh env.refreshResp env.dbUpdateOk st0.users
    ctx.userId now u hfresh
  have hany := owns_true l ctx.email hmem
  constructor
  · intro htr
    unfold deleteFile deleteFileCore
    simp only [hfind, hir, hmeta, howners, hany, htr]
    simp
  · intro htr hdel haud
    unfold deleteFile deleteFileCore
    simp only [hfind, hir, hmeta, howners, hany, htr, hdel, haud]
    simp

/-- C6: deleteFile by a caller whose email is absent from the owners list
fails with PermissionDenied and issues no DELETE call. -/
theorem c6_delete_non_owner (env : DeleteEnv) (st0 : St) (ctx : UserContext)
    (fileId : String) (now : Int) (u : UserRow) (meta : DeleteMeta)
    (l : List String)
    (hfind : st0.users.find? (fun w => w.id == ctx.userId) = some u)
    (hfresh : now < u.token_expiry)
    (hmeta : env.metadataResp = .ok meta)
    (howners : meta.owners = some l)
    (hnot : ctx.email ∉ l) :
    (deleteFile env st0 ctx fileId now).result = .error .permissionDenied ∧
    (deleteFile env st0 ctx fileId now).trace.deleteCalls = 0 := by
  have hir := inlineRefresh_fresh env.refreshResp env.dbUpdateOk st0.users
    ctx.userId now u hfresh
  have hany := owns_false l ctx.email hnot
  unfold deleteFile deleteFileCore
  simp only [hfind, hir, hmeta, howners, hany]
  cases env.failAuditInsertOk <;> simp

/-- C10: when deleteFile short-circuits on an already-trashed file it writes
no audit entry at all, and the only database write on that path is the token
refresh when one was needed. -/
theorem c10_trashed_no_audit (env : DeleteEnv) (st0 : St) (ctx : UserContext)
    (fileId : String) (now : Int) (u : UserRow) (meta : DeleteMeta)
    (l : List String) (data : RefreshData)
    (hfind : st0.users.find? (fun w => w.id == ctx.userId) = some u)
    (hmeta : env.metadataResp = .ok meta)
    (howners : meta.owners = some l)
    (hmem : ctx.email ∈ l)
    (htr : meta.trashed = some true) :
    (now < u.token_expiry →
      (deleteFile env st0 ctx fileId now).result = .ok ⟨false, "File is already in trash"⟩ ∧
      (deleteFile env st0 ctx fileId now).st.audits = st0.audits ∧
      (deleteFile env st0 ctx fileId now).trace.dbWrites = 0) ∧
    (u.token_expiry ≤ now → env.refreshResp = .ok data → env.dbUpdateOk = true →
      (deleteFile env st0 ctx fileId now).result = .ok ⟨false, "File is already in trash"⟩ ∧
      (deleteFile env st0 ctx fileId now).st.audits = st0.audits ∧
      (deleteFile env st0 ctx fileId now).trace.dbWrites = 1 ∧
      (deleteFile env st0 ctx fileId now).trace.tokenCalls = 1) := by
  have hany := owns_true l ctx.email hmem
  constructor
  · intro hfresh
    have hir := inlineRefresh_fresh env.refreshResp env.dbUpdateOk st0.users
      ctx.userId now u hfresh
    unfold deleteFile deleteFileCore
    simp only [hfind, hir, hmeta, howners, hany, htr]
    simp
  · intro hexp hresp hupd
    have hir : inlineRefresh env.refreshResp env.dbUpdateOk st0.users
        ctx.userId now u =
        ⟨.ok data.access_token,
         st0.users.map (fun w =>
           if w.id == ctx.userId then
             { w with
               access_token := data.access_token,
               token_expiry := now + data.expires_in * 1000,
               updated_at := now }
           else w),
         1, 1⟩ := by
      unfold inlineRefresh
      rw [if_pos hexp, hresp, hupd]
      simp
    unfold deleteFile deleteFileCore
    simp only [hfind, hir, hmeta, howners, hany, htr]
    simp

/-- Appending a suffix makes the JavaScript endsWith test true. -/
theorem jsEndsWith_append (a b : String) : jsEndsWith (a ++ b) b = true := by
  unfold jsEndsWith
  rw [String.data_append, List.isSuffixOf_iff_suffix]
  exact List.suffix_append a.data b.data

/-- C4: downloading a file whose metadata reports the Workspace document
MIME type yields the docx export MIME type and a name ending in .docx, the
extension appended only when not already present, for every stored size; the
original Workspace MIME type is never returned. -/
theorem c4_download_gdoc (env : DownloadEnv) (st0 : St) (ctx : UserContext)
    (fileId : String) (now : Int) (u : UserRow) (meta : DownloadMeta)
    (hfind : st0.users.find? (fun w => w.id == ctx.userId) = some u)
    (hfresh : now < u.token_expiry)
    (hmeta : env.metadataResp = .ok meta)
    (hmime : meta.mimeType = "application/vnd.google-apps.document")
    (hcontent : env.contentOk = true)
    (haudit : env.auditInsertOk = true) :
    (downloadFile env st0 ctx fileId now).result =
      .ok ⟨env.contentB64,
        "application/vnd.openxmlformats-officedocument.wordprocessingml.document",
        if jsEndsWith meta.name ".docx" then meta.name else meta.name ++ ".docx"⟩ ∧
    (∀ r, (downloadFile env st0 ctx fileId now).result = .ok r →
      jsEndsWith r.name ".docx" = true ∧
      r.mimeType ≠ "application/vnd.google-apps.document") := by
  have hir := inlineRefresh_fresh env.refreshResp env.dbUpdateOk st0.users
    ctx.userId now u hfresh
  have hwt : workspaceTypes meta.mimeType =
      some ("application/vnd.openxmlformats-officedocument.wordprocessingml.document", ".docx") := by
    rw [hmime]
    decide
  have h1 : (downloadFile env st0 ctx fileId now).result =
      .ok ⟨env.contentB64,
        "application/vnd.openxmlformats-officedocument.wordprocessingml.document",
        if jsEndsWith meta.name ".docx" then meta.name else meta.name ++ ".docx"⟩ := by
    unfold downloadFile
    simp only [hfind, hir, hmeta, hwt, hcontent, haudit]
    simp
  refine ⟨h1, ?_⟩
  intro r hr
  rw [h1] at hr
  have h2 : r = ⟨env.contentB64,
      "application/vnd.openxmlformats-officedocument.wordprocessingml.document",
      if jsEndsWith meta.name ".docx" then meta.name else meta.name ++ ".docx"⟩ :=
    (Except.ok.inj hr).symm
  subst h2
  constructor
  · by_cases hn : jsEndsWith meta.name ".docx" = true
    · simp [hn]
    · simp only [Bool.not_eq_true] at hn
      simp [hn, jsEndsWith_append]
  · simp

/-- Shared witness user, caller context, state and refresh payload. -/
def wu : UserRow := ⟨1, "g-1", "owner@example.com", "tok-a", "tok-r", 1000000, 0⟩

/-- Witness caller context matching the witness user. -/
def wctx : UserContext := ⟨1, "g-1", "owner@example.com"⟩

/-- Witness state holding the witness user and no audit entries. -/
def wst : St := ⟨[wu], []⟩

/-- Witness token-endpoint payload. -/
def wrd : RefreshData := ⟨"newtok", 3600, none⟩

/-- Witness download metadata: a Workspace document without a size. -/
def w4meta : DownloadMeta :=
  ⟨"fid", "Report", "application/vnd.google-apps.document", none, none⟩

/-- Witness download environment. -/
def w4env : DownloadEnv := ⟨.ok wrd, true, .ok w4meta, true, 3, "QUJD", true⟩

/-- C4 witness: the concrete download returns the docx MIME type and the
docx-suffixed name. -/
theorem c4_witness :
    (downloadFile w4env wst wctx "fid" 0).result =
      .ok ⟨"QUJD",
        "application/vnd.openxmlformats-officedocument.wordprocessingml.document",
        "Report.docx"⟩ :=
  (c4_download_gdoc w4env wst wctx "fid" 0 wu w4meta rfl (by decide)
    rfl rfl rfl rfl).1

/-- Witness delete metadata for an owned, already-trashed file. -/
def w5metaT : DeleteMeta := ⟨"Doc", some ["p"], some true, some ["owner@example.com"]⟩

/-- Witness delete metadata for an owned, non-trashed file. -/
def w5metaN : DeleteMeta := ⟨"Doc", some ["p"], some false, some ["owner@example.com"]⟩

/-- Witness delete environment for the trashed file. -/
def w5envT : DeleteEnv := ⟨.ok wrd, true, .ok w5metaT, true, true, true⟩

/-- Witness delete environment for the non-trashed file. -/
def w5envN : DeleteEnv := ⟨.ok wrd, true, .ok w5metaN, true, true, true⟩

/-- C5 witness: both delete behaviours at concrete inputs. -/
theorem c5_witness :
    deleteFile w5envT wst wctx "fid" 0 =
      ⟨.ok ⟨false, "File is already in trash"⟩, wst, { metadataCalls := 1 }⟩ ∧
    ((deleteFile w5envN wst wctx "fid" 0).result =
      .ok ⟨true, "File \"Doc\" deleted successfully"⟩ ∧
     (deleteFile w5envN wst wctx "fid" 0).trace.metadataCalls = 1 ∧
     (deleteFile w5envN wst wctx "fid" 0).trace.deleteCalls = 1) := by
  have h1 := c5_delete_trashed_and_normal w5envT wst wctx "fid" 0 wu w5metaT
    ["owner@example.com"] rfl (by decide) rfl rfl (by decide)
  have h2 := c5_delete_trashed_and_normal w5envN wst wctx "fid" 0 wu w5metaN
    ["owner@example.com"] rfl (by decide) rfl rfl (by decide)
  exact ⟨h1.1 rfl, h2.2 rfl rfl rfl⟩

/-- Witness delete metadata owned by somebody else. -/
def w6meta : DeleteMeta := ⟨"Doc", none, some false, some ["other@example.com"]⟩

/-- Witness delete environment for the non-owner case. -/
def w6env : DeleteEnv := ⟨.ok wrd, true, .ok w6meta, true, true, true⟩

/-- C6 witness: the concrete non-owner delete is denied with no DELETE call. -/
theorem c6_witness :
    (deleteFile w6env wst wctx "fid" 0).result = .error .permissionDenied ∧
    (deleteFile w6env wst wctx "fid" 0).trace.deleteCalls = 0 :=
  c6_delete_non_owner w6env wst wctx "fid" 0 wu w6meta ["other@example.com"]
    rfl (by decide) rfl rfl (by decide)

/-- C10 witness: the trashed short-circuit writes no audit entry, with a
fresh token at time 0 and an expired token at time 2000000. -/
theorem c10_witness :
    ((deleteFile w5envT wst wctx "fid" 0).result = .ok ⟨false, "File is already in trash"⟩ ∧
     (deleteFile w5envT wst wctx "fid" 0).st.audits = wst.audits ∧
     (deleteFile w5envT wst wctx "fid" 0).trace.dbWrites = 0) ∧
    ((deleteFile w5envT wst wctx "fid" 2000000).result = .ok ⟨false, "File is already in trash"⟩ ∧
     (deleteFile w5envT wst wctx "fid" 2000000).st.audits = wst.audits ∧
     (deleteFile w5envT wst wctx "fid" 2000000).trace.dbWrites = 1 ∧
     (deleteFile w5envT wst wctx "fid" 2000000).trace.tokenCalls = 1) := by
  have h1 := c10_trashed_no_audit w5envT wst wctx "fid" 0 wu w5metaT
    ["owner@example.com"] wrd rfl rfl rfl (by decide) rfl
  have h2 := c10_trashed_no_audit w5envT wst wctx "fid" 2000000 wu w5metaT
    ["owner@example.com"] wrd rfl rfl rfl (by decide) rfl
  exact ⟨h1.1 (by decide), h2.2 (by decide) rfl rfl⟩

/-- refreshUserToken performs at most one database write, and only when a
token call was made. -/
theorem refreshUserToken_atMostOneWrite (env : RefreshEnv)
    (users0 : List UserRow) (ctx : UserContext) (now : Int) :
    (refreshUserToken env users0 ctx now).dbWrites ≤ 1 ∧
    ((refreshUserToken env users0 ctx now).dbWrites = 1 →
      (refreshUserToken env users0 ctx now).tokenCalls = 1) := by
  unfold refreshUserToken
  split
  · simp
  · split
    · simp
    · split
      · simp
      · split <;> simp

/-- refreshAccessTokenIfNeeded performs at most one database write, and only
when a token call was made. -/
theorem refreshIfNeeded_atMostOneWrite (env : RefreshEnv)
    (users0 : List UserRow) (uid : Nat) (now : Int) :
    (refreshAccessTokenIfNeeded env users0 uid now).dbWrites ≤ 1 ∧
    ((refreshAccessTokenIfNeeded env users0 uid now).dbWrites = 1 →
      (refreshAccessTokenIfNeeded env users0 uid now).tokenCalls = 1) := by
  unfold refreshAccessTokenIfNeeded
  split
  · simp
  · split
    · simp
    · split
      · simp
      · split <;> simp

/-- C7: a stored token whose expiry is outside the five-minute buffer makes
both refreshers perform no token-endpoint call and no database write; and
across all inputs each refresher call performs at most one database write,
and only when a refresh call occurred. -/
theorem c7_refresh_frame (env : RefreshEnv) (users0 : List UserRow)
    (ctx : UserContext) (uid : Nat) (now : Int) (u v : UserRow) :
    (users0.find? (fun w => w.id == ctx.userId) = some u →
      u.token_expiry > now + 5 * 60 * 1000 →
      refreshUserToken env users0 ctx now = ⟨.ok (), users0, 0, 0⟩) ∧
    (users0.find? (fun w => w.id == uid) = some v →
      now < v.token_expiry - 5 * 60 * 1000 →
      refreshAccessTokenIfNeeded env users0 uid now =
        ⟨.ok v.access_token, users0, 0, 0⟩) ∧
    ((refreshUserToken env users0 ctx now).dbWrites ≤ 1) ∧
    ((refreshUserToken env users0 ctx now).dbWrites = 1 →
      (refreshUserToken env users0 ctx now).tokenCalls = 1) ∧
    ((refreshAccessTokenIfNeeded env users0 uid now).dbWrites ≤ 1) ∧
    ((refreshAccessTokenIfNeeded env users0 uid now).dbWrites = 1 →
      (refreshAccessTokenIfNeeded env users0 uid now).tokenCalls = 1) := by
  refine ⟨?_, ?_, (refreshUserToken_atMostOneWrite env users0 ctx now).1,
    (refreshUserToken_atMostOneWrite env users0 ctx now).2,
    (refreshIfNeeded_atMostOneWrite env users0 uid now).1,
    (refreshIfNeeded_atMostOneWrite env users0 uid now).2⟩
  · intro h1 h2
    unfold refreshUserToken
    simp only [h1]
    rw [if_pos h2]
  · intro h1 h2
    unfold refreshAccessTokenIfNeeded
    simp only [h1]
    rw [if_pos h2]

/-- Witness refresh environment with a successful endpoint. -/
def wre : RefreshEnv := ⟨.ok wrd, true⟩

/-- C7 witness: with a fresh token neither refresher calls the endpoint or
writes. -/
theorem c7_witness :
    refreshUserToken wre [wu] wctx 0 = ⟨.ok (), [wu], 0, 0⟩ ∧
    refreshAccessTokenIfNeeded wre [wu] 1 0 = ⟨.ok wu.access_token, [wu], 0, 0⟩ := by
  have h := c7_refresh_frame wre [wu] wctx 1 0 wu wu
  exact ⟨h.1 rfl (by decide), h.2.1 rfl (by decide)⟩

/-- A failing refreshUserToken run leaves the user table unchanged. -/
theorem refreshUserToken_error_frame (env : RefreshEnv) (users0 : List UserRow)
    (ctx : UserContext) (now : Int) (e : OpError) :
    (refreshUserToken env users0 ctx now).result = .error e →
    (refreshUserToken env users0 ctx now).users = users0 := by
  unfold refreshUserToken
  split
  · intro _; rfl
  · split
    · intro h; exact absurd h (by simp)
    · split
      · intro _; rfl
      · split
        · intro h; exact absurd h (by simp)
        · intro _; rfl

/-- A successful refreshUserToken refresh persists access token, expiry and
rotated refresh token together in a single write. -/
theorem refreshUserToken_success (env : RefreshEnv) (users0 : List UserRow)
    (ctx : UserContext) (now : Int) (u : UserRow) (data : RefreshData)
    (hfind : users0.find? (fun w => w.id == ctx.userId) = some u)
    (hdue : ¬ u.token_expiry > now + 5 * 60 * 1000)
    (hresp : env.refreshResp = .ok data)
    (hupd : env.dbUpdateOk = true) :
    refreshUserToken env users0 ctx now =
      ⟨.ok (),
       users0.map (fun w =>
         if w.id == ctx.userId then
           { w with
             access_token := data.access_token,
             token_expiry := now + data.expires_in * 1000,
             refresh_token := rotatedToken w.refresh_token data.refresh_token,
             updated_at := now }
         else w),
       1, 1⟩ := by
  unfold refreshUserToken
  simp only [hfind]
  rw [if_neg hdue, hresp, hupd]
  simp

/-- A failing inline refresh leaves the user table unchanged. -/
theorem inlineRefresh_error_frame (resp : FetchOutcome RefreshData)
    (upd : Bool) (users0 : List UserRow) (uid : Nat) (now : Int) (u : UserRow)
    (e : OpError) :
    (inlineRefresh resp upd users0 uid now u).result = .error e →
    (inlineRefresh resp upd users0 uid now u).users = users0 := by
  unfold inlineRefresh
  split
  · split
    · intro _; rfl
    · split
      · intro h; exact absurd h (by simp)
      · intro _; rfl
  · intro h; exact absurd h (by simp)

/-- A successful inline refresh persists access token and expiry together,
leaving the stored refresh token untouched. -/
theorem inlineRefresh_success (resp : FetchOutcome RefreshData) (upd : Bool)
    (users0 : List UserRow) (uid : Nat) (now : Int) (u : UserRow)
    (data : RefreshData)
    (hdue : u.token_expiry ≤ now)
    (hresp : resp = .ok data)
    (hupd : upd = true) :
    inlineRefresh resp upd users0 uid now u =
      ⟨.ok data.access_token,
       users0.map (fun w =>
         if w.id == uid then
           { w with
             access_token := data.access_token,
             token_expiry := now + data.expires_in * 1000,
             updated_at := now }
         else w),
       1, 1⟩ := by
  unfold inlineRefresh
  rw [if_pos hdue, hresp, hupd]
  simp

/-- The inline refresh never changes any stored refresh token. -/
theorem inlineRefresh_retains_refresh (resp : FetchOutcome RefreshData)
    (upd : Bool) (users0 : List UserRow) (uid : Nat) (now : Int) (u : UserRow) :
    (inlineRefresh resp upd users0 uid now u).users.map (fun w => w.refresh_token) =
      users0.map (fun w => w.refresh_token) := by
  unfold inlineRefresh
  split
  · split
    · rfl
    · split
      · simp only [List.map_map]
        apply List.map_congr_left
        intro a _
        simp only [Function.comp_apply]
        split <;> rfl
      · rfl
  · rfl

/-- The list-handler refresher never changes any stored refresh token. -/
theorem refreshIfNeeded_retains_refresh (env : RefreshEnv)
    (users0 : List UserRow) (uid : Nat) (now : Int) :
    (refreshAccessTokenIfNeeded env users0 uid now).users.map (fun w => w.refresh_token) =
      users0.map (fun w => w.refresh_token) := by
  unfold refreshAccessTokenIfNeeded
  split
  · rfl
  · split
    · rfl
    · split
      · rfl
      · split
        · simp only [List.map_map]
          apply List.map_congr_left
          intro a _
          simp only [Function.comp_apply]
          split <;> rfl
        · rfl

/-- The open-doc refresher never changes any stored refresh token. -/
theorem refreshOpenDoc_retains_refresh (resp : FetchOutcome RefreshData)
    (upd : Bool) (users0 : List UserRow) (uid : Nat) (now : Int) :
    (refreshAccessTokenOpenDoc resp upd users0 uid now).users.map (fun w => w.refresh_token) =
      users0.map (fun w => w.refresh_token) := by
  unfold refreshAccessTokenOpenDoc
  split
  · rfl
  · split
    · split
      · simp only [List.map_map]
        apply List.map_congr_left
        intro a _
        simp only [Function.comp_apply]
        split <;> rfl
      · rfl
    · split
      · simp only [List.map_map]
        apply List.map_congr_left
        intro a _
        simp only [Function.comp_apply]
        split <;> rfl
      · rfl

/-- C8: access token and expiry are updated together or not at all, in every
refresher; a failed refresh leaves the table unchanged; the stored refresh
token is replaced only when the provider response carries a truthy new
refresh token (refreshUserToken rotates exactly then; the inline, list and
open-doc refreshers never touch it). -/
theorem c8_token_invariant (env : RefreshEnv) (resp : FetchOutcome RefreshData)
    (upd : Bool) (users0 : List UserRow) (ctx : UserContext) (uid : Nat)
    (now : Int) (u : UserRow) (data : RefreshData) (e e2 : OpError) :
    ((refreshUserToken env users0 ctx now).result = .error e →
      (refreshUserToken env users0 ctx now).users = users0) ∧
    (users0.find? (fun w => w.id == ctx.userId) = some u →
      ¬ u.token_expiry > now + 5 * 60 * 1000 →
      env.refreshResp = .ok data → env.dbUpdateOk = true →
      refreshUserToken env users0 ctx now =
        ⟨.ok (),
         users0.map (fun w =>
           if w.id == ctx.userId then
             { w with
               access_token := data.access_token,
               token_expiry := now + data.expires_in * 1000,
               refresh_token := rotatedToken w.refresh_token data.refresh_token,
               updated_at := now }
           else w),
         1, 1⟩) ∧
    (∀ old : String, rotatedToken old none = old) ∧
    (∀ old : String, rotatedToken old (some "") = old) ∧
    (∀ old r : String, r ≠ "" → rotatedToken old (some r) = r) ∧
    ((inlineRefresh resp upd users0 uid now u).result = .error e2 →
      (inlineRefresh resp upd users0 uid now u).users = users0) ∧
    (u.token_expiry ≤ now → resp = .ok data → upd = true →
      inlineRefresh resp upd users0 uid now u =
        ⟨.ok data.access_token,
         users0.map (fun w =>
           if w.id == uid then
             { w with
               access_token := data.access_token,
               token_expiry := now + data.expires_in * 1000,
               updated_at := now }
           else w),
         1, 1⟩) ∧
    ((inlineRefresh resp upd users0 uid now u).users.map (fun w => w.refresh_token) =
      users0.map (fun w => w.refresh_token)) ∧
    ((refreshAccessTokenIfNeeded env users0 uid now).users.map (fun w => w.refresh_token) =
      users0.map (fun w => w.refresh_token)) ∧
    ((refreshAccessTokenOpenDoc resp upd users0 uid now).users.map (fun w => w.refresh_token) =
      users0.map (fun w => w.refresh_token)) := by
  refine ⟨refreshUserToken_error_frame env users0 ctx now e,
    fun h1 h2 h3 h4 => refreshUserToken_success env users0 ctx now u data h1 h2 h3 h4,
    fun old => rfl, fun old => rfl, fun old r hr => by simp [rotatedToken, hr],
    inlineRefresh_error_frame resp upd users0 uid now u e2,
    fun h1 h2 h3 => inlineRefresh_success resp upd users0 uid now u data h1 h2 h3,
    inlineRefresh_retains_refresh resp upd users0 uid now u,
    refreshIfNeeded_retains_refresh env users0 uid now,
    refreshOpenDoc_retains_refresh resp upd users0 uid now⟩

/-- Witness user with an expired token. -/
def wuOld : UserRow := ⟨2, "g-2", "b@example.com", "oldat", "oldrt", 0, 0⟩

/-- Witness caller context for the expired user. -/
def wctx2 : UserContext := ⟨2, "g-2", "b@example.com"⟩

/-- Witness token payload carrying a rotated refresh token. -/
def wrd8 : RefreshData := ⟨"newat", 10, some "newrt"⟩

/-- Witness refresh environment with rotation. -/
def wreRot : RefreshEnv := ⟨.ok wrd8, true⟩

/-- Witness refresh environment whose endpoint fails. -/
def wreFail : RefreshEnv := ⟨.httpFail 500, true⟩

/-- C8 witness: a failed refresh leaves the table unchanged; a successful
refreshUserToken updates token, expiry and the rotated refresh token in one
write; the inline refresh updates token and expiry but retains the stored
refresh token even though the provider rotated. -/
theorem c8_witness :
    (refreshUserToken wreFail [wuOld] wctx2 1000).users = [wuOld] ∧
    refreshUserToken wreRot [wuOld] wctx2 1000 =
      ⟨.ok (), [⟨2, "g-2", "b@example.com", "newat", "newrt", 11000, 1000⟩], 1, 1⟩ ∧
    inlineRefresh (.ok wrd8) true [wuOld] 2 1000 wuOld =
      ⟨.ok "newat", [⟨2, "g-2", "b@example.com", "newat", "oldrt", 11000, 1000⟩], 1, 1⟩ := by
  have hfail := c8_token_invariant wreFail (.httpFail 500) true [wuOld] wctx2 2
    1000 wuOld wrd8 .refreshFailed .refreshFailed
  have hrot := c8_token_invariant wreRot (.ok wrd8) true [wuOld] wctx2 2
    1000 wuOld wrd8 .refreshFailed .refreshFailed
  refine ⟨hfail.1 rfl, ?_, ?_⟩
  · exact hrot.2.1 rfl (by decide) rfl rfl
  · exact hrot.2.2.2.2.2.2.1 (by decide) rfl rfl

/-- Witness provider file resource for upload. -/
def c2df : DriveApiFile :=
  ⟨"fid", "fname", "text/plain", some "3", "t1", "t2", none, none, none, none,
   some "drive#file"⟩

/-- Upload environment whose audit insert fails while everything else
succeeds. -/
def c2upEnv : UploadEnv := ⟨.ok wrd, true, .ok c2df, false⟩

/-- Witness upload input. -/
def c2input : UploadFileInput := ⟨"fname", "text/plain", none, "QUJD"⟩

/-- C2 counterexample: in uploadFile a failing audit-log insert is not
swallowed; the run returns an error and no result at all, although the
upload itself succeeded, so the claim as stated is false. -/
theorem c2_counterexample :
    (uploadFile c2upEnv wst wctx c2input 0).result = .error .dbFailure ∧
    ∀ v, (uploadFile c2upEnv wst wctx c2input 0).result ≠ .ok v := by
  have h : (uploadFile c2upEnv wst wctx c2input 0).result = .error .dbFailure := rfl
  exact ⟨h, fun v hv => by rw [h] at hv; exact Except.noConfusion hv⟩

/-- C2 amended: only the list handler swallows audit-insert failures; in
upload, download, delete (on its success path) and open the audit insert runs
inside the try block, so its failure propagates to the caller as an error
(delete additionally writes a best-effort delete_failed entry whose own
failure is swallowed). -/
theorem c2_amended (lenv : ListEnv) (uenv : UploadEnv) (denv : DownloadEnv)
    (delenv : DeleteEnv) (oenv : OpenEnv) (st0 : St) (ctx : UserContext)
    (input : ListFilesInput) (uinput : UploadFileInput) (fileId : String)
    (now : Int) (u : UserRow) (pl : ListPayload) (df : DriveApiFile)
    (dmeta : DownloadMeta) (delmeta : DeleteMeta) (ometa : OpenMeta)
    (l : List String) (seg : String)
    (hfind : st0.users.find? (fun w => w.id == ctx.userId) = some u)
    (hfresh5 : now < u.token_expiry - 5 * 60 * 1000) :
    (lenv.listResp = .ok pl → lenv.auditInsertOk = false →
      (listFiles lenv st0 ctx input now).result =
        .ok ⟨pl.files.map transformGoogleDriveFile, pl.nextPageToken⟩) ∧
    (uenv.uploadResp = .ok df → uenv.auditInsertOk = false →
      (uploadFile uenv st0 ctx uinput now).result = .error .dbFailure) ∧
    (denv.metadataResp = .ok dmeta → denv.contentOk = true →
      denv.auditInsertOk = false →
      (downloadFile denv st0 ctx fileId now).result = .error .dbFailure) ∧
    (delenv.metadataResp = .ok delmeta → delmeta.owners = some l →
      ctx.email ∈ l → delmeta.trashed.getD false = false →
      delenv.deleteOk = true → delenv.auditInsertOk = false →
      (deleteFile delenv st0 ctx fileId now).result = .error .dbFailure ∧
      (deleteFile delenv st0 ctx fileId now).trace.deleteCalls = 1) ∧
    (oenv.metadataResp = .ok ometa → workspaceMimeTypes ometa.mimeType = some seg →
      oenv.auditInsertOk = false →
      (openWorkspaceDoc oenv st0 ctx fileId now).result = .error .dbFailure) := by
  have hfresh : now < u.token_expiry := by omega
  have hir := fun (resp : FetchOutcome RefreshData) (upd : Bool) =>
    inlineRefresh_fresh resp upd st0.users ctx.userId now u hfresh
  refine ⟨?_, ?_, ?_, ?_, ?_⟩
  · intro hlist haud
    have hr : refreshAccessTokenIfNeeded ⟨lenv.refreshResp, lenv.dbUpdateOk⟩
        st0.users ctx.userId now = ⟨.ok u.access_token, st0.users, 0, 0⟩ := by
      unfold refreshAccessTokenIfNeeded
      simp only [hfind]
      rw [if_pos hfresh5]
    unfold listFiles
    simp only [hr, hlist, haud]
    simp
  · intro hup haud
    unfold uploadFile
    simp only [hfind, hir, hup, haud]
    simp
  · intro hmeta hcont haud
    unfold downloadFile
    simp only [hfind, hir, hmeta, hcont, haud]
    simp
  · intro hmeta howners hmem htr hdel haud
    have hany := owns_true l ctx.email hmem
    unfold deleteFile deleteFileCore
    simp only [hfind, hir, hmeta, howners, hany, htr, hdel, haud]
    cases delenv.failAuditInsertOk <;> simp
  · intro hmeta hseg haud
    unfold openWorkspaceDoc
    simp only [hfind]
    rw [if_neg (not_le.mpr hfresh)]
    simp only [hmeta, hseg, haud]
    simp

/-- Witness list environment whose audit insert fails. -/
def c2lsPayload : ListPayload := ⟨[c2df], some "npt"⟩

/-- Witness list environment with a failing audit insert. -/
def c2lsEnv : ListEnv := ⟨.ok wrd, true, .ok c2lsPayload, false⟩

/-- Witness list input. -/
def c2lsInput : ListFilesInput := ⟨none, none, 100, none⟩

/-- Witness download environment with a failing audit insert. -/
def c2dlEnv : DownloadEnv := ⟨.ok wrd, true, .ok w4meta, true, 3, "QUJD", false⟩

/-- Witness delete environment with a failing audit insert on the success
path. -/
def c2delEnv : DeleteEnv := ⟨.ok wrd, true, .ok w5metaN, true, false, true⟩

/-- Witness open metadata naming a Workspace document. -/
def c2omta : OpenMeta := ⟨"Report", "application/vnd.google-apps.document"⟩

/-- Witness open environment with a failing audit insert. -/
def c2opEnv : OpenEnv := ⟨.ok wrd, true, .ok c2omta, false⟩

/-- C2 amended witness: the concrete list run still returns its result while
upload, download, delete and open surface the audit failure. -/
theorem c2_amended_witness :
    (listFiles c2lsEnv wst wctx c2lsInput 0).result =
      .ok ⟨c2lsPayload.files.map transformGoogleDriveFile, c2lsPayload.nextPageToken⟩ ∧
    (uploadFile c2upEnv wst wctx c2input 0).result = .error .dbFailure ∧
    (downloadFile c2dlEnv wst wctx "fid" 0).result = .error .dbFailure ∧
    ((deleteFile c2delEnv wst wctx "fid" 0).result = .error .dbFailure ∧
     (deleteFile c2delEnv wst wctx "fid" 0).trace.deleteCalls = 1) ∧
    (openWorkspaceDoc c2opEnv wst wctx "fid" 0).result = .error .dbFailure := by
  have h := c2_amended c2lsEnv c2upEnv c2dlEnv c2delEnv c2opEnv wst wctx
    c2lsInput c2input "fid" 0 wu c2lsPayload c2df w4meta w5metaN c2omta
    ["owner@example.com"] "document" rfl (by decide)
  exact ⟨h.1 rfl rfl, h.2.1 rfl rfl, h.2.2.1 rfl rfl rfl,
    h.2.2.2.1 rfl rfl (by decide) rfl rfl rfl, h.2.2.2.2 rfl (by decide) rfl⟩

end GDrive
